import Mathlib

/-!
Verification of the DMI Home Assistant integration core (API client and
refresh coordinator) against its natural-language specification.

The HTTP client methods in `api.py` and the coordinator update cycle in
`coordinator.py` are embedded shallowly: network effects become an explicit
`HttpOutcome` value fed to each operation, Python floats become rationals,
Python `None` becomes `Option.none`, Python dicts (which preserve insertion
order and overwrite in place) become association lists with an in-place
insert, and raised exceptions become `Except` errors.
-/

namespace DMI

/-- Outcome of one `aiohttp` GET as seen by `DMIApiClient._request`:
either the connection itself fails (`aiohttp.ClientError`), or a response
arrives with a status code and a body that either parses as JSON of the
expected shape (`some`) or does not (`none`, surfacing as an
`aiohttp.ClientResponseError` carrying the response status). -/
inductive HttpOutcome (α : Type) where
  | networkError : HttpOutcome α
  | response (status : Nat) (body : Option α) : HttpOutcome α
deriving DecidableEq

/-- The two exception kinds declared in `api.py`: `RateLimitExceeded` and
`CannotConnect`. -/
inductive ApiError where
  | rateLimitExceeded : ApiError
  | cannotConnect : ApiError
deriving DecidableEq

/-- `DMIApiClient._request` (api.py lines 34-61): a 429 status raises
`RateLimitExceeded`; `raise_for_status` raises `ClientResponseError` for any
status of 400 or above, which the handler maps to `RateLimitExceeded` when
its status is 429 and to `CannotConnect` otherwise; an unparsable body
raises a `ClientResponseError` with the response status (here below 400 and
not 429, hence `CannotConnect`); any other `ClientError` maps to
`CannotConnect`. -/
def _request {α : Type} (o : HttpOutcome α) : Except ApiError α :=
  match o with
  | .networkError => .error .cannotConnect
  | .response status body =>
    if status = 429 then .error .rateLimitExceeded
    else if 400 ≤ status then .error .cannotConnect
    else
      match body with
      | some j => .ok j
      | none => .error .cannotConnect

/-- Python truthiness of an optional string: `None` and the empty string are
falsy, every other string is truthy. -/
def truthy : Option String → Bool
  | none => false
  | some s => s != ""

/-! ## Observations (`DMIApiClient.get_observations`) -/

/-- The `properties` object of one observation feature: `parameterId`,
`value` and `observed` are each read with `.get`, so any of them may be
absent. -/
structure ObsProps where
  parameterId : Option String
  value : Option ℚ
  observed : Option String
deriving DecidableEq

/-- The per-parameter record stored by `get_observations`:
`{"value": ..., "observed": ...}`. -/
structure ObsEntry where
  value : Option ℚ
  observed : Option String
deriving DecidableEq

/-- Python dict assignment `d[k] = v` on an insertion-ordered dict: when the
key is already present its value is overwritten in place, otherwise the pair
is appended at the end. -/
def dictInsert {β : Type} (d : List (String × β)) (k : String) (v : β) :
    List (String × β) :=
  if d.any (fun p => decide (p.1 = k)) then
    d.map (fun p => if p.1 = k then (k, v) else p)
  else
    d ++ [(k, v)]

/-- Python dict key access `d[k]` on an insertion-ordered dict modelled as
an association list: the value of the first pair carrying the key. -/
def dictLookup {β : Type} : List (String × β) → String → Option β
  | [], _ => none
  | (a, b) :: tl, k => if k = a then some b else dictLookup tl k

/-- One iteration of the parsing loop of `get_observations` (api.py lines
116-123): when the parameterId of the feature is truthy, assign the pair of
its value and observed timestamp under that key. -/
def obsStep (observations : List (String × ObsEntry)) (feature : ObsProps) :
    List (String × ObsEntry) :=
  if truthy feature.parameterId then
    dictInsert observations (feature.parameterId.getD "")
      { value := feature.value, observed := feature.observed }
  else observations

/-- The parsing loop of `get_observations` (api.py lines 115-125): fold the
features left to right starting from the empty dict. -/
def parseObservations (features : List ObsProps) : List (String × ObsEntry) :=
  features.foldl obsStep []

/-- `DMIApiClient.get_observations`: one request, then the parsing fold. -/
def get_observations (o : HttpOutcome (List ObsProps)) :
    Except ApiError (List (String × ObsEntry)) :=
  (_request o).map parseObservations

/-- Reference description of the duplicate-resolution policy the fold in
`get_observations` actually implements: the record of the LAST feature in
feed order whose truthy parameterId equals the given id, or none when no
such feature exists. -/
def lastEntryFor : List ObsProps → String → Option ObsEntry
  | [], _ => none
  | f :: fs, pid =>
    match lastEntryFor fs pid with
    | some e => some e
    | none =>
      if truthy f.parameterId = true ∧ f.parameterId = some pid then
        some { value := f.value, observed := f.observed }
      else none

/-! ## Stations (`DMIApiClient.get_stations`) -/

/-- One station feature as read by `get_stations`: `properties.stationId`,
`properties.name`, `geometry.coordinates` (a list whose elements may be
null; an absent geometry or coordinates key defaults to `[None, None]` on
the input side), `properties.type` and `properties.parameterId`
(defaulting to the empty list). -/
structure StationFeature where
  stationId : Option String
  name : Option String
  coordinates : List (Option ℚ)
  type : Option String
  parameterId : List String
deriving DecidableEq

/-- The station dictionary built by `get_stations`. -/
structure Station where
  stationId : Option String
  name : Option String
  longitude : Option ℚ
  latitude : Option ℚ
  type : Option String
  parameterId : List String
deriving DecidableEq

/-- The station dictionary construction (api.py lines 85-92):
`coordinates[0] if len(coordinates) > 0 else None` and likewise for index 1;
an in-range element that is itself null stays null, hence the join. -/
def mkStation (feature : StationFeature) : Station :=
  { stationId := feature.stationId
    name := feature.name
    longitude := (feature.coordinates.get? 0).join
    latitude := (feature.coordinates.get? 1).join
    type := feature.type
    parameterId := feature.parameterId }

/-- One iteration of the parsing loop of `get_stations` (api.py lines
80-94): build the station dictionary and append it only when its
`stationId` is truthy. -/
def stationStep (stations : List Station) (feature : StationFeature) :
    List Station :=
  let station := mkStation feature
  if truthy station.stationId then stations ++ [station] else stations

/-- The parsing loop of `get_stations` (api.py lines 79-96): fold the
features in feed order starting from the empty list. -/
def parseStations (features : List StationFeature) : List Station :=
  features.foldl stationStep []

/-- `DMIApiClient.get_stations`: one request, then the parsing fold. -/
def get_stations (o : HttpOutcome (List StationFeature)) :
    Except ApiError (List Station) :=
  (_request o).map parseStations

/-! ## Forecast (`DMIApiClient.get_forecast`) -/

/-- The CoverageJSON-style forecast response as read by `get_forecast`:
the time axis `domain.axes.t.values` (defaulting to `[]` when absent) and
the map `ranges`, from parameter name to the flat `values` array of that
range, in which a parameter may be entirely absent. -/
structure ForecastResponse where
  timeValues : List String
  ranges : List (String × List (Option ℚ))
deriving DecidableEq

/-- The values array of a named range, read with two defaulting lookups in
the source, so that an entirely absent range yields the empty list. -/
def rangeValues (data : ForecastResponse) (name : String) : List (Option ℚ) :=
  match dictLookup data.ranges name with
  | some vs => vs
  | none => []

/-- One hourly forecast entry: `datetime` always present, each remaining
field present only when set by the loop body. -/
structure ForecastEntry where
  datetime : String
  temperature : Option ℚ
  wind_speed : Option ℚ
  wind_dir : Option ℚ
  humidity : Option ℚ
  precipitation : Option ℚ
  cloud_cover : Option ℚ
deriving DecidableEq

/-- The value a parameter contributes at index `i`: present exactly when the
values array has an entry at `i` and that entry is not null
(`if i < len(data) and data[i] is not None`). -/
def paramAt (data : ForecastResponse) (name : String) (i : Nat) : Option ℚ :=
  ((rangeValues data name).get? i).join

/-- The loop body of `get_forecast` (api.py lines 175-200) at loop index `i`
and time value `t`: temperature is converted from Kelvin by subtracting
273.15, every other parameter is copied through unchanged. -/
def mkForecastEntry (data : ForecastResponse) (i : Nat) (t : String) :
    ForecastEntry :=
  { datetime := t
    temperature := (paramAt data "temperature-2m" i).map (fun k => k - 273.15)
    wind_speed := paramAt data "wind-speed-10m" i
    wind_dir := paramAt data "wind-dir-10m" i
    humidity := paramAt data "relative-humidity" i
    precipitation := paramAt data "total-precipitation" i
    cloud_cover := paramAt data "cloud-cover" i }

/-- `for i, time_value in enumerate(time_values)`: build one entry per time
axis element, threading the index. -/
def buildHourly (data : ForecastResponse) : Nat → List String → List ForecastEntry
  | _, [] => []
  | i, t :: ts => mkForecastEntry data i t :: buildHourly data (i + 1) ts

/-- The parsing part of `get_forecast` (api.py lines 156-202), producing the
`hourly` list of the returned dictionary. -/
def parseForecast (data : ForecastResponse) : List ForecastEntry :=
  buildHourly data 0 data.timeValues

/-- `DMIApiClient.get_forecast`: one request, then the parsing loop. -/
def get_forecast (o : HttpOutcome ForecastResponse) :
    Except ApiError (List ForecastEntry) :=
  (_request o).map parseForecast

/-! ## Connection test (`DMIApiClient.test_connection`) -/

/-- `DMIApiClient.test_connection` (api.py lines 204-221): issue the minimal
station request; on success return `True`; any exception whatsoever —
including the `RateLimitExceeded` that `_request` raises on a 429 — is
caught by `except Exception` and re-raised as `CannotConnect`. -/
def test_connection (o : HttpOutcome (List StationFeature)) :
    Except ApiError Bool :=
  match _request o with
  | .ok _ => .ok true
  | .error _ => .error .cannotConnect

/-! ## Refresh coordinator (`DMIDataUpdateCoordinator._async_update_data`) -/

/-- The coordinator state fixed at construction (coordinator.py lines
49-64): station id and name, optional coordinates, and the
forecast-enabled flag. -/
structure CoordinatorConfig where
  station_id : String
  station_name : String
  latitude : Option ℚ
  longitude : Option ℚ
  include_forecast : Bool
deriving DecidableEq

/-- Outcome of the inner `get_forecast` call during one cycle: either it
returns a forecast dictionary (whose `hourly` list is carried here), or it
raises some exception — `except Exception` treats every raised exception
alike. -/
inductive FcOutcome where
  | ok (hourly : List ForecastEntry) : FcOutcome
  | exn : FcOutcome
deriving DecidableEq

/-- What one cycle observes of its environment: either the overall
30-second timeout elapses (`TimeoutError` at the `async_timeout` boundary),
or the mandatory `get_observations` call raises one of the two API errors,
or it returns a record, after which the optional forecast call has its own
outcome. -/
inductive CycleEnv where
  | timeout : CycleEnv
  | obsErr (e : ApiError) : CycleEnv
  | obsOk (observations : List (String × ObsEntry)) (fc : FcOutcome) : CycleEnv
deriving DecidableEq

/-- The `UpdateFailed` raised by `_async_update_data`, tagged by which
`except` branch raised it; the two API branches carry their original cause
(`from err`). -/
inductive CycleError where
  | rateLimited (cause : ApiError) : CycleError
  | connection (cause : ApiError) : CycleError
  | timeoutExpired : CycleError
deriving DecidableEq

/-- One value of the snapshot dictionary returned by a successful cycle:
the observations record, the forecast dictionary (standing for the
`hourly`-keyed dict `get_forecast` returns), the `dt_util.utcnow()`
timestamp, or Python `None`. -/
inductive SnapVal where
  | null : SnapVal
  | observations (record : List (String × ObsEntry)) : SnapVal
  | forecast (hourly : List ForecastEntry) : SnapVal
  | timestamp (t : Nat) : SnapVal
deriving DecidableEq

/-- `DMIDataUpdateCoordinator._async_update_data` (coordinator.py lines
74-116): on timeout raise `UpdateFailed` from the `TimeoutError` branch; an
observation-fetch `RateLimitExceeded` or `CannotConnect` propagates to its
matching `except` branch; otherwise `forecast` starts as `None`, is fetched
only when `include_forecast` is set and both coordinates are not `None`,
any exception from that fetch is swallowed leaving `forecast = None`, and
the returned dictionary is built with exactly the three literal keys. -/
def run_cycle (cfg : CoordinatorConfig) (env : CycleEnv) (now : Nat) :
    Except CycleError (List (String × SnapVal)) :=
  match env with
  | .timeout => .error .timeoutExpired
  | .obsErr .rateLimitExceeded => .error (.rateLimited .rateLimitExceeded)
  | .obsErr .cannotConnect => .error (.connection .cannotConnect)
  | .obsOk observations fc =>
    let forecast : Option (List ForecastEntry) :=
      if cfg.include_forecast && cfg.latitude.isSome && cfg.longitude.isSome then
        match fc with
        | .ok hourly => some hourly
        | .exn => none
      else none
    .ok [("observations", SnapVal.observations observations),
         ("forecast",
           match forecast with
           | some hourly => SnapVal.forecast hourly
           | none => SnapVal.null),
         ("last_updated", SnapVal.timestamp now)]

/-! ## Classification predicates over HTTP outcomes -/

/-- An outcome whose HTTP status is 429: either seen directly on the
response or carried by the `ClientResponseError` it produces. -/
def is429 {α : Type} : HttpOutcome α → Bool
  | .networkError => false
  | .response status _ => status == 429

/-- An outcome on which the request fails for any reason: network failure,
a status of 400 or above (including 429), or an unparsable body. -/
def httpFailed {α : Type} : HttpOutcome α → Bool
  | .networkError => true
  | .response status body => decide (400 ≤ status) || body.isNone

/-! ## Concrete inputs used by witnesses -/

/-- A one-step forecast response whose only populated range holds 288.65
Kelvin. -/
def forecastKelvinExample : ForecastResponse :=
  { timeValues := ["2024-01-15T12:00:00Z"]
    ranges := [("temperature-2m", [some 288.65])] }

/-- A two-step forecast response in which only the temperature range is
populated, and only at the first index. -/
def forecastAxisExample : ForecastResponse :=
  { timeValues := ["2024-01-15T12:00:00Z", "2024-01-15T13:00:00Z"]
    ranges := [("temperature-2m", [some 288.65])] }

/-- A coordinator configuration with forecast enabled and both coordinates
known. -/
def cfgForecastOn : CoordinatorConfig :=
  { station_id := "06180"
    station_name := "Kastrup"
    latitude := some 55.61
    longitude := some 12.65
    include_forecast := true }

/-! # Helper lemmas on the dict model -/

lemma dictLookup_append {β : Type} (d1 d2 : List (String × β)) (k : String) :
    dictLookup (d1 ++ d2) k =
      match dictLookup d1 k with
      | some b => some b
      | none => dictLookup d2 k := by
  induction d1 with
  | nil => simp [dictLookup]
  | cons hd tl ih =>
    obtain ⟨a, b⟩ := hd
    by_cases hk : k = a <;> simp [dictLookup, hk, ih]

lemma replace_head_eq {β : Type} (k : String) (v : β) (a : String) (b : β)
    (h : a = k) : (if (a, b).1 = k then (k, v) else (a, b)) = (k, v) := by
  simp [h]

lemma replace_head_ne {β : Type} (k : String) (v : β) (a : String) (b : β)
    (h : ¬a = k) : (if (a, b).1 = k then (k, v) else (a, b)) = (a, b) := by
  simp [h]

lemma dictLookup_map_replace {β : Type} (d : List (String × β)) (k : String)
    (v : β) (q : String) :
    dictLookup (d.map (fun p => if p.1 = k then (k, v) else p)) q =
      if q = k then (if d.any (fun p => decide (p.1 = k)) then some v else none)
      else dictLookup d q := by
  induction d with
  | nil => by_cases hq : q = k <;> simp [dictLookup, hq]
  | cons hd tl ih =>
    obtain ⟨a, b⟩ := hd
    simp only [List.map_cons, List.any_cons]
    by_cases hak : a = k
    · rw [replace_head_eq k v a b hak]
      subst hak
      by_cases hq : q = a
      · subst hq
        simp [dictLookup]
      · simp only [dictLookup, if_neg hq, ih]
    · rw [replace_head_ne k v a b hak]
      by_cases hq : q = a
      · subst hq
        have hqk : ¬q = k := hak
        simp [dictLookup, hqk]
      · simp only [dictLookup, if_neg hq, ih]
        by_cases hqk : q = k
        · have hdec : decide (a = k) = false := decide_eq_false hak
          simp only [hqk, if_pos, hdec, Bool.false_or]
        · simp [hqk]

lemma dictLookup_eq_none_of_forall {β : Type} (d : List (String × β))
    (k : String) (h : ∀ p ∈ d, p.1 ≠ k) : dictLookup d k = none := by
  induction d with
  | nil => rfl
  | cons hd tl ih =>
    obtain ⟨a, b⟩ := hd
    have ha : a ≠ k := h (a, b) (by simp)
    have hka : k ≠ a := fun hk => ha hk.symm
    simp only [dictLookup, if_neg hka]
    exact ih (fun p hp => h p (by simp [hp]))

lemma dictLookup_dictInsert {β : Type} (d : List (String × β)) (k : String)
    (v : β) (q : String) :
    dictLookup (dictInsert d k v) q = if q = k then some v else dictLookup d q := by
  unfold dictInsert
  by_cases h : d.any (fun p => decide (p.1 = k)) = true
  · rw [if_pos h, dictLookup_map_replace]
    by_cases hq : q = k <;> simp [hq, h]
  · have hf : d.any (fun p => decide (p.1 = k)) = false := by
      exact Bool.not_eq_true _ ▸ eq_false_of_ne_true h
    rw [if_neg h, dictLookup_append]
    have hnone : dictLookup d k = none := by
      apply dictLookup_eq_none_of_forall
      intro p hp
      have := List.any_eq_false.mp hf p hp
      simpa using this
    by_cases hq : q = k
    · subst hq
      simp [hnone, dictLookup]
    · simp only [if_neg hq]
      cases hd : dictLookup d q with
      | some b => simp
      | none => simp [dictLookup, hq]

lemma keys_dictInsert {β : Type} (d : List (String × β)) (k : String) (v : β) :
    (dictInsert d k v).map Prod.fst =
      if d.any (fun p => decide (p.1 = k)) then d.map Prod.fst
      else d.map Prod.fst ++ [k] := by
  unfold dictInsert
  by_cases h : d.any (fun p => decide (p.1 = k)) = true
  · rw [if_pos h, if_pos h, List.map_map]
    apply List.map_congr_left
    intro p _
    by_cases hpk : p.1 = k <;> simp [hpk]
  · rw [if_neg h, if_neg h, List.map_append]
    rfl

lemma nodup_keys_dictInsert {β : Type} (d : List (String × β)) (k : String)
    (v : β) (h : (d.map Prod.fst).Nodup) :
    ((dictInsert d k v).map Prod.fst).Nodup := by
  rw [keys_dictInsert]
  by_cases ha : d.any (fun p => decide (p.1 = k)) = true
  · simpa [ha] using h
  · have hf : d.any (fun p => decide (p.1 = k)) = false :=
      Bool.not_eq_true _ ▸ eq_false_of_ne_true ha
    rw [if_neg ha]
    have hk : k ∉ d.map Prod.fst := by
      intro hmem
      obtain ⟨p, hp, hpk⟩ := List.mem_map.mp hmem
      have := List.any_eq_false.mp hf p hp
      simp [hpk] at this
    simp [List.nodup_append, h, hk, List.disjoint_singleton]

lemma foldl_obsStep_dictLookup (features : List ObsProps) :
    ∀ (acc : List (String × ObsEntry)) (pid : String),
      dictLookup (features.foldl obsStep acc) pid =
        match lastEntryFor features pid with
        | some e => some e
        | none => dictLookup acc pid := by
  induction features with
  | nil =>
    intro acc pid
    simp [lastEntryFor]
  | cons f fs ih =>
    intro acc pid
    rw [List.foldl_cons, ih]
    cases hl : lastEntryFor fs pid with
    | some e => simp [lastEntryFor, hl]
    | none =>
      simp only [lastEntryFor, hl]
      unfold obsStep
      cases hp : f.parameterId with
      | none => simp [truthy]
      | some s =>
        by_cases hs : s = ""
        · subst hs
          simp [truthy]
        · have ht : truthy (some s) = true := by simp [truthy, hs]
          rw [if_pos ht, dictLookup_dictInsert]
          by_cases hps : pid = s
          · subst hps
            simp [ht]
          · have hsp : ¬(some s = some pid) := by
              intro hcon
              exact hps (Option.some.inj hcon).symm
            simp [ht, hsp, hps]

lemma foldl_obsStep_nodup (features : List ObsProps) :
    ∀ acc : List (String × ObsEntry), (acc.map Prod.fst).Nodup →
      ((features.foldl obsStep acc).map Prod.fst).Nodup := by
  induction features with
  | nil =>
    intro acc h
    simpa using h
  | cons f fs ih =>
    intro acc h
    rw [List.foldl_cons]
    apply ih
    unfold obsStep
    by_cases ht : truthy f.parameterId = true
    · rw [if_pos ht]
      exact nodup_keys_dictInsert _ _ _ h
    · rw [if_neg ht]
      exact h

lemma foldl_stationStep (features : List StationFeature) :
    ∀ acc : List Station,
      features.foldl stationStep acc =
        acc ++ (features.filter (fun f => truthy f.stationId)).map mkStation := by
  induction features with
  | nil =>
    intro acc
    simp
  | cons f fs ih =>
    intro acc
    rw [List.foldl_cons, ih]
    unfold stationStep
    by_cases ht : truthy (mkStation f).stationId = true
    · have htf : truthy f.stationId = true := ht
      simp only [ht, if_pos, List.filter_cons, htf, List.map_cons,
        List.append_assoc, List.singleton_append]
    · have htf : ¬truthy f.stationId = true := ht
      simp [ht, htf]

lemma buildHourly_length (data : ForecastResponse) :
    ∀ (i0 : Nat) (ts : List String),
      (buildHourly data i0 ts).length = ts.length := by
  intro i0 ts
  induction ts generalizing i0 with
  | nil => rfl
  | cons t ts ih => simp [buildHourly, ih]

lemma buildHourly_get? (data : ForecastResponse) :
    ∀ (ts : List String) (i0 j : Nat),
      (buildHourly data i0 ts).get? j =
        (ts.get? j).map (fun t => mkForecastEntry data (i0 + j) t) := by
  intro ts
  induction ts with
  | nil =>
    intro i0 j
    simp [buildHourly]
  | cons t ts ih =>
    intro i0 j
    cases j with
    | zero => simp [buildHourly]
    | succ j =>
      simp only [buildHourly, List.get?]
      rw [ih (i0 + 1) j]
      have harith : i0 + 1 + j = i0 + (j + 1) := by omega
      rw [harith]

lemma parseForecast_get? (data : ForecastResponse) (i : Nat) :
    (parseForecast data).get? i =
      (data.timeValues.get? i).map (fun t => mkForecastEntry data i t) := by
  rw [parseForecast, buildHourly_get?]
  simp

lemma map_ne_none_iff {α β : Type} (f : α → β) (o : Option α) :
    o.map f ≠ none ↔ o ≠ none := by
  cases o <;> simp

lemma paramAt_ne_none_iff (data : ForecastResponse) (name : String) (i : Nat) :
    paramAt data name i ≠ none ↔
      ∃ v : ℚ, (rangeValues data name).get? i = some (some v) := by
  rw [paramAt]
  cases h : (rangeValues data name).get? i with
  | none => simp [h, Option.join]
  | some o => cases o <;> simp [h, Option.join]

lemma paramAt_absent (data : ForecastResponse) (name : String) (i : Nat)
    (h : dictLookup data.ranges name = none) : paramAt data name i = none := by
  simp [paramAt, rangeValues, h, Option.join]

lemma _request_rateLimit_iff {α : Type} (o : HttpOutcome α) :
    _request o = Except.error ApiError.rateLimitExceeded ↔ is429 o = true := by
  cases o with
  | networkError => simp [_request, is429]
  | response status body =>
    by_cases h429 : status = 429
    · subst h429
      simp [_request, is429]
    · by_cases h400 : 400 ≤ status
      · simp [_request, is429, h429, h400]
      · cases body <;> simp [_request, is429, h429, h400]

lemma _request_cannotConnect_iff {α : Type} (o : HttpOutcome α) :
    _request o = Except.error ApiError.cannotConnect ↔
      (httpFailed o = true ∧ is429 o = false) := by
  cases o with
  | networkError => simp [_request, is429, httpFailed]
  | response status body =>
    by_cases h429 : status = 429
    · subst h429
      simp [_request, is429, httpFailed]
    · by_cases h400 : 400 ≤ status
      · simp [_request, is429, httpFailed, h429, h400]
      · cases body <;> simp [_request, is429, httpFailed, h429, h400]

lemma _request_ok_httpFailed {α : Type} (o : HttpOutcome α) (a : α)
    (h : _request o = Except.ok a) : httpFailed o = false := by
  cases o with
  | networkError => simp [_request] at h
  | response status body =>
    by_cases h429 : status = 429
    · subst h429
      simp [_request] at h
    · by_cases h400 : 400 ≤ status
      · simp [_request, h429, h400] at h
      · cases body with
        | none => simp [_request, h429, h400] at h
        | some b => simp [httpFailed, h400]

lemma _request_error_httpFailed {α : Type} (o : HttpOutcome α) (e : ApiError)
    (h : _request o = Except.error e) : httpFailed o = true := by
  cases o with
  | networkError => rfl
  | response status body =>
    by_cases h400 : 400 ≤ status
    · simp [httpFailed, h400]
    · by_cases h429 : status = 429
      · omega
      · cases body with
        | none => simp [httpFailed]
        | some b => simp [_request, h429, h400] at h

lemma except_map_error_iff {α β : Type} (f : α → β) (x : Except ApiError α)
    (e : ApiError) : x.map f = Except.error e ↔ x = Except.error e := by
  cases x <;> simp [Except.map]

/-! # Claim theorems -/

/-- Claim C1, counterexample. In a feed whose first temp_dry reading
carries the later observed timestamp (12:00) and whose second carries the
earlier one (11:00), `get_observations` keeps the second reading: the
retained entry is the last one in feed order, not the one whose observed
timestamp is latest, refuting the claim as stated. -/
theorem get_observations_latest_counterexample :
    get_observations (HttpOutcome.response 200 (some
      [ { parameterId := some "temp_dry", value := some 15.5,
          observed := some "2024-01-15T12:00:00Z" },
        { parameterId := some "temp_dry", value := some 14,
          observed := some "2024-01-15T11:00:00Z" } ]))
      = Except.ok [("temp_dry",
          { value := some 14, observed := some "2024-01-15T11:00:00Z" })] ∧
    "2024-01-15T11:00:00Z" ≠ "2024-01-15T12:00:00Z" := by
  constructor
  · rfl
  · decide

/-- Claim C1, amended. For every observation feed, the Record returned by
`get_observations` contains exactly one entry per parameterId (its key list
has no duplicates), and the entry stored under an id is the value/observed
pair of the last feature in feed order whose truthy parameterId equals that
id — feed position, not the observed timestamp, decides which duplicate
survives, and earlier duplicates are discarded silently. -/
theorem get_observations_last_seen_wins (features : List ObsProps)
    (record : List (String × ObsEntry))
    (h : get_observations (HttpOutcome.response 200 (some features)) =
      Except.ok record) :
    (record.map Prod.fst).Nodup ∧
    ∀ pid : String, dictLookup record pid = lastEntryFor features pid := by
  have hr : record = parseObservations features := by
    simp [get_observations, _request, Except.map] at h
    exact h.symm
  subst hr
  refine ⟨foldl_obsStep_nodup features [] (by simp), ?_⟩
  intro pid
  rw [parseObservations, foldl_obsStep_dictLookup]
  cases hl : lastEntryFor features pid <;> simp [dictLookup]

/-- Claim C1, witness: the amended theorem applied to the concrete
duplicate feed, evaluating to the later-positioned reading. -/
theorem get_observations_last_seen_wins_witness :
    dictLookup (parseObservations
      [ { parameterId := some "temp_dry", value := some 15.5,
          observed := some "2024-01-15T12:00:00Z" },
        { parameterId := some "temp_dry", value := some 14,
          observed := some "2024-01-15T11:00:00Z" } ]) "temp_dry"
      = some { value := some 14, observed := some "2024-01-15T11:00:00Z" } := by
  have h := (get_observations_last_seen_wins
    [ { parameterId := some "temp_dry", value := some 15.5,
        observed := some "2024-01-15T12:00:00Z" },
      { parameterId := some "temp_dry", value := some 14,
        observed := some "2024-01-15T11:00:00Z" } ]
    (parseObservations
      [ { parameterId := some "temp_dry", value := some 15.5,
          observed := some "2024-01-15T12:00:00Z" },
        { parameterId := some "temp_dry", value := some 14,
          observed := some "2024-01-15T11:00:00Z" } ]) rfl).2 "temp_dry"
  rw [h]
  rfl

/-- Claim C5. For every station feed, `get_stations` excludes exactly those
features whose stationId is absent or empty (returning the rest in upstream
feed order, without re-sorting), and absence of a stationId is not an
error: the call still succeeds. -/
theorem get_stations_drops_blank_ids (features : List StationFeature)
    (stations : List Station)
    (h : get_stations (HttpOutcome.response 200 (some features)) =
      Except.ok stations) :
    stations = (features.filter (fun f => truthy f.stationId)).map mkStation ∧
    (∀ f : StationFeature,
      truthy f.stationId = false ↔ f.stationId = none ∨ f.stationId = some "") := by
  have hr : stations = parseStations features := by
    simp [get_stations, _request, Except.map] at h
    exact h.symm
  subst hr
  constructor
  · rw [parseStations, foldl_stationStep]
    simp
  · intro f
    cases hf : f.stationId with
    | none => simp [truthy]
    | some s =>
      by_cases hs : s = "" <;> simp [truthy, hs]

/-- Claim C5, witness: a feed of two features in which the second lacks a
stationId yields exactly one Station, via the theorem applied at that
feed. -/
theorem get_stations_drops_blank_ids_witness :
    parseStations
      [ { stationId := some "06180", name := some "Kastrup",
          coordinates := [some 12.65, some 55.61], type := some "Synop",
          parameterId := ["temp_dry"] },
        { stationId := none, name := some "Unnamed", coordinates := [],
          type := none, parameterId := [] } ]
      = [mkStation
          { stationId := some "06180", name := some "Kastrup",
            coordinates := [some 12.65, some 55.61], type := some "Synop",
            parameterId := ["temp_dry"] }] := by
  have h := (get_stations_drops_blank_ids
    [ { stationId := some "06180", name := some "Kastrup",
        coordinates := [some 12.65, some 55.61], type := some "Synop",
        parameterId := ["temp_dry"] },
      { stationId := none, name := some "Unnamed", coordinates := [],
        type := none, parameterId := [] } ]
    (parseStations
      [ { stationId := some "06180", name := some "Kastrup",
          coordinates := [some 12.65, some 55.61], type := some "Synop",
          parameterId := ["temp_dry"] },
        { stationId := none, name := some "Unnamed", coordinates := [],
          type := none, parameterId := [] } ]) rfl).1
  rw [h]
  rfl

/-- Claim C6. In every Forecast Entry produced by `get_forecast`, the
temperature field equals the upstream value at that index minus 273.15
(the Kelvin-to-Celsius conversion), while wind_speed, wind_dir, humidity,
precipitation and cloud_cover pass the upstream value through
unconverted. -/
theorem get_forecast_kelvin_to_celsius (data : ForecastResponse)
    (entries : List ForecastEntry) (i : Nat) (e : ForecastEntry)
    (h : get_forecast (HttpOutcome.response 200 (some data)) = Except.ok entries)
    (he : entries.get? i = some e) :
    e.temperature = (paramAt data "temperature-2m" i).map (fun k => k - 273.15) ∧
    e.wind_speed = paramAt data "wind-speed-10m" i ∧
    e.wind_dir = paramAt data "wind-dir-10m" i ∧
    e.humidity = paramAt data "relative-humidity" i ∧
    e.precipitation = paramAt data "total-precipitation" i ∧
    e.cloud_cover = paramAt data "cloud-cover" i := by
  have hr : entries = parseForecast data := by
    simp [get_forecast, _request, Except.map] at h
    exact h.symm
  subst hr
  rw [parseForecast_get?] at he
  cases ht : data.timeValues.get? i with
  | none =>
    rw [ht] at he
    simp at he
  | some t =>
    rw [ht] at he
    have he3 : mkForecastEntry data i t = e := by simpa using he
    subst he3
    exact ⟨rfl, rfl, rfl, rfl, rfl, rfl⟩

/-- Claim C6, witness: the theorem applied to a concrete response carrying
288.65 Kelvin, whose entry evaluates to exactly 15.5 Celsius. -/
theorem get_forecast_kelvin_to_celsius_witness :
    (mkForecastEntry forecastKelvinExample 0 "2024-01-15T12:00:00Z").temperature
      = some 15.5 := by
  have h := (get_forecast_kelvin_to_celsius forecastKelvinExample
    (parseForecast forecastKelvinExample) 0
    (mkForecastEntry forecastKelvinExample 0 "2024-01-15T12:00:00Z")
    rfl rfl).1
  rw [h]
  norm_num [paramAt, rangeValues, dictLookup, forecastKelvinExample, Option.join]

/-- Claim C7. For every forecast response, `get_forecast` returns exactly
one Forecast Entry per element of the time axis (the entry count equals the
time axis length); entry i carries a parameter field exactly when that
parameter value array has an entry at index i which is non-null; and a
parameter whose range is entirely absent from the response leaves the field
absent from every entry — the parse always succeeds, never erring. -/
theorem get_forecast_time_axis (data : ForecastResponse)
    (entries : List ForecastEntry)
    (h : get_forecast (HttpOutcome.response 200 (some data)) = Except.ok entries) :
    entries.length = data.timeValues.length ∧
    (∀ (i : Nat) (e : ForecastEntry), entries.get? i = some e →
      ((e.temperature ≠ none ↔
        ∃ v : ℚ, (rangeValues data "temperature-2m").get? i = some (some v)) ∧
       (e.wind_speed ≠ none ↔
        ∃ v : ℚ, (rangeValues data "wind-speed-10m").get? i = some (some v)) ∧
       (e.wind_dir ≠ none ↔
        ∃ v : ℚ, (rangeValues data "wind-dir-10m").get? i = some (some v)) ∧
       (e.humidity ≠ none ↔
        ∃ v : ℚ, (rangeValues data "relative-humidity").get? i = some (some v)) ∧
       (e.precipitation ≠ none ↔
        ∃ v : ℚ, (rangeValues data "total-precipitation").get? i = some (some v)) ∧
       (e.cloud_cover ≠ none ↔
        ∃ v : ℚ, (rangeValues data "cloud-cover").get? i = some (some v)))) ∧
    (∀ (i : Nat) (e : ForecastEntry), entries.get? i = some e →
      (dictLookup data.ranges "temperature-2m" = none → e.temperature = none) ∧
      (dictLookup data.ranges "wind-speed-10m" = none → e.wind_speed = none) ∧
      (dictLookup data.ranges "wind-dir-10m" = none → e.wind_dir = none) ∧
      (dictLookup data.ranges "relative-humidity" = none → e.humidity = none) ∧
      (dictLookup data.ranges "total-precipitation" = none → e.precipitation = none) ∧
      (dictLookup data.ranges "cloud-cover" = none → e.cloud_cover = none)) := by
  have hr : entries = parseForecast data := by
    simp [get_forecast, _request, Except.map] at h
    exact h.symm
  subst hr
  refine ⟨?_, ?_, ?_⟩
  · rw [parseForecast, buildHourly_length]
  · intro i e he
    rw [parseForecast_get?] at he
    cases ht : data.timeValues.get? i with
    | none =>
      rw [ht] at he
      simp at he
    | some t =>
      rw [ht] at he
      have he3 : mkForecastEntry data i t = e := by simpa using he
      subst he3
      refine ⟨?_, ?_, ?_, ?_, ?_, ?_⟩
      · exact (map_ne_none_iff _ _).trans (paramAt_ne_none_iff data _ i)
      · exact paramAt_ne_none_iff data _ i
      · exact paramAt_ne_none_iff data _ i
      · exact paramAt_ne_none_iff data _ i
      · exact paramAt_ne_none_iff data _ i
      · exact paramAt_ne_none_iff data _ i
  · intro i e he
    rw [parseForecast_get?] at he
    cases ht : data.timeValues.get? i with
    | none =>
      rw [ht] at he
      simp at he
    | some t =>
      rw [ht] at he
      have he3 : mkForecastEntry data i t = e := by simpa using he
      subst he3
      refine ⟨?_, ?_, ?_, ?_, ?_, ?_⟩
      · intro habs
        show (paramAt data "temperature-2m" i).map (fun k => k - 273.15) = none
        rw [paramAt_absent data _ i habs]
        rfl
      · intro habs
        exact paramAt_absent data _ i habs
      · intro habs
        exact paramAt_absent data _ i habs
      · intro habs
        exact paramAt_absent data _ i habs
      · intro habs
        exact paramAt_absent data _ i habs
      · intro habs
        exact paramAt_absent data _ i habs

/-- Claim C7, witness: the theorem applied to a concrete two-step response
with only the temperature range present gives two entries, and the first
entry omits the cloud_cover field. -/
theorem get_forecast_time_axis_witness :
    (parseForecast forecastAxisExample).length = 2 ∧
    (mkForecastEntry forecastAxisExample 0 "2024-01-15T12:00:00Z").cloud_cover
      = none := by
  have h := get_forecast_time_axis forecastAxisExample
    (parseForecast forecastAxisExample) rfl
  constructor
  · rw [h.1]
    rfl
  · exact (h.2.2 0
      (mkForecastEntry forecastAxisExample 0 "2024-01-15T12:00:00Z") rfl).2.2.2.2.2
      rfl

/-- Claim C2. Whenever the observation fetch succeeds, forecast is enabled
and both coordinates are known, a forecast fetch that raises — any
exception whatsoever, the `except Exception` branch — is swallowed: the
cycle still returns the snapshot whose observations are the fetched record
and whose forecast is None, and no error propagates. -/
theorem run_cycle_swallows_forecast_failure (cfg : CoordinatorConfig)
    (observations : List (String × ObsEntry)) (now : Nat)
    (h1 : cfg.include_forecast = true)
    (h2 : cfg.latitude.isSome = true)
    (h3 : cfg.longitude.isSome = true) :
    run_cycle cfg (CycleEnv.obsOk observations FcOutcome.exn) now =
      Except.ok
        [("observations", SnapVal.observations observations),
         ("forecast", SnapVal.null),
         ("last_updated", SnapVal.timestamp now)] := by
  simp [run_cycle, h1, h2, h3]

/-- Claim C2, witness: the theorem applied at a concrete configuration with
forecast enabled and both coordinates set. -/
theorem run_cycle_swallows_forecast_failure_witness :
    run_cycle cfgForecastOn (CycleEnv.obsOk [] FcOutcome.exn) 0 =
      Except.ok
        [("observations", SnapVal.observations []),
         ("forecast", SnapVal.null),
         ("last_updated", SnapVal.timestamp 0)] :=
  run_cycle_swallows_forecast_failure cfgForecastOn [] 0 rfl rfl rfl

/-- Claim C3. A rate-limited observation fetch fails the cycle with the
rate-limited error kind carrying its original cause, and never with the
connection kind; a connectivity failure fails with the connection kind, and
an elapsed overall timeout fails with the timeout kind. -/
theorem run_cycle_error_kinds (cfg : CoordinatorConfig) (now : Nat) :
    run_cycle cfg (CycleEnv.obsErr ApiError.rateLimitExceeded) now =
      Except.error (CycleError.rateLimited ApiError.rateLimitExceeded) ∧
    (∀ c : ApiError,
      run_cycle cfg (CycleEnv.obsErr ApiError.rateLimitExceeded) now ≠
        Except.error (CycleError.connection c)) ∧
    run_cycle cfg (CycleEnv.obsErr ApiError.cannotConnect) now =
      Except.error (CycleError.connection ApiError.cannotConnect) ∧
    run_cycle cfg CycleEnv.timeout now = Except.error CycleError.timeoutExpired := by
  refine ⟨rfl, ?_, rfl, rfl⟩
  intro c hc
  rw [show run_cycle cfg (CycleEnv.obsErr ApiError.rateLimitExceeded) now =
    Except.error (CycleError.rateLimited ApiError.rateLimitExceeded) from rfl] at hc
  simp at hc

/-- Claim C3, witness: the theorem applied at a concrete configuration. -/
theorem run_cycle_error_kinds_witness :
    run_cycle cfgForecastOn (CycleEnv.obsErr ApiError.rateLimitExceeded) 0 =
      Except.error (CycleError.rateLimited ApiError.rateLimitExceeded) :=
  (run_cycle_error_kinds cfgForecastOn 0).1

/-- Claim C4. Invariant on every snapshot of a cycle whose observation
fetch succeeded: whenever forecast fetching is disabled, or a coordinate is
unknown, or the forecast fetch failed, the forecast key holds None while
the observations key still holds the observation record of this cycle. -/
theorem run_cycle_forecast_absent_invariant (cfg : CoordinatorConfig)
    (observations : List (String × ObsEntry)) (fc : FcOutcome) (now : Nat)
    (snapshot : List (String × SnapVal))
    (h : run_cycle cfg (CycleEnv.obsOk observations fc) now = Except.ok snapshot)
    (habs : cfg.include_forecast = false ∨ cfg.latitude = none ∨
      cfg.longitude = none ∨ fc = FcOutcome.exn) :
    dictLookup snapshot "forecast" = some SnapVal.null ∧
    dictLookup snapshot "observations" =
      some (SnapVal.observations observations) := by
  have hs : snapshot =
      [("observations", SnapVal.observations observations),
       ("forecast", SnapVal.null),
       ("last_updated", SnapVal.timestamp now)] := by
    rcases habs with h1 | h1 | h1 | h1 <;>
      · simp [run_cycle, h1] at h
        exact h.symm
  subst hs
  constructor
  · rfl
  · rfl

/-- Claim C4, witness: the theorem applied at a concrete configuration with
a failing forecast fetch. -/
theorem run_cycle_forecast_absent_invariant_witness :
    dictLookup
      [("observations", SnapVal.observations []),
       ("forecast", SnapVal.null),
       ("last_updated", SnapVal.timestamp 0)] "forecast" = some SnapVal.null :=
  (run_cycle_forecast_absent_invariant cfgForecastOn [] FcOutcome.exn 0
    [("observations", SnapVal.observations []),
     ("forecast", SnapVal.null),
     ("last_updated", SnapVal.timestamp 0)]
    rfl (Or.inr (Or.inr (Or.inr rfl)))).1

/-- Claim C10. Every snapshot returned by a successful cycle has exactly
the three keys observations, forecast and last_updated, in that order; when
the forecast is unavailable — the fetch raised, forecasting is disabled, or
a coordinate is unknown — the forecast key is still present and bound to
None rather than omitted. -/
theorem run_cycle_snapshot_shape (cfg : CoordinatorConfig) (env : CycleEnv)
    (now : Nat) (snapshot : List (String × SnapVal))
    (h : run_cycle cfg env now = Except.ok snapshot) :
    snapshot.map Prod.fst = ["observations", "forecast", "last_updated"] ∧
    (∀ observations : List (String × ObsEntry),
      env = CycleEnv.obsOk observations FcOutcome.exn →
      dictLookup snapshot "forecast" = some SnapVal.null) ∧
    (cfg.include_forecast = false →
      dictLookup snapshot "forecast" = some SnapVal.null) ∧
    ((cfg.latitude = none ∨ cfg.longitude = none) →
      dictLookup snapshot "forecast" = some SnapVal.null) := by
  cases env with
  | timeout => simp [run_cycle] at h
  | obsErr e => cases e <;> simp [run_cycle] at h
  | obsOk observations fc =>
    simp only [run_cycle] at h
    have hs := (Except.ok.inj h).symm
    refine ⟨?_, ?_, ?_, ?_⟩
    · rw [hs]
      rfl
    · intro obs2 henv
      injection henv with henv1 henv2
      subst henv2
      rw [hs]
      simp [dictLookup]
    · intro hoff
      rw [hs]
      simp [dictLookup, hoff]
    · intro hcoord
      rw [hs]
      rcases hcoord with h1 | h1 <;> simp [dictLookup, h1]

/-- Claim C10, witness: the theorem applied at a concrete successful cycle
whose forecast fetch raised. -/
theorem run_cycle_snapshot_shape_witness :
    ([("observations", SnapVal.observations []),
      ("forecast", SnapVal.null),
      ("last_updated", SnapVal.timestamp 0)].map Prod.fst)
      = ["observations", "forecast", "last_updated"] :=
  (run_cycle_snapshot_shape cfgForecastOn (CycleEnv.obsOk [] FcOutcome.exn) 0
    [("observations", SnapVal.observations []),
     ("forecast", SnapVal.null),
     ("last_updated", SnapVal.timestamp 0)] rfl).1

/-- Claim C8, counterexample. On an HTTP 429 response `test_connection`
raises the connection-error kind, not the rate-limit kind: its blanket
`except Exception` handler catches the `RateLimitExceeded` that `_request`
raised and re-raises it as `CannotConnect`, so the 429 classification does
not hold for all four operations as claimed. -/
theorem test_connection_429_counterexample :
    test_connection (HttpOutcome.response 429 (some [])) =
      Except.error ApiError.cannotConnect ∧
    test_connection (HttpOutcome.response 429 (some [])) ≠
      Except.error ApiError.rateLimitExceeded := by
  refine ⟨rfl, ?_⟩
  intro hc
  rw [show test_connection (HttpOutcome.response 429 (some [])) =
    Except.error ApiError.cannotConnect from rfl] at hc
  simp at hc

/-- Claim C8 (amended). For the three fetch operations an HTTP 429, seen
directly or inside an HTTP error, is classified as the rate-limit
condition, and every other failure — network failure, non-2xx status,
malformed response — as the connectivity condition; `test_connection`
however collapses every failure, the rate-limit condition included, into
the connectivity condition; no operation distinguishes finer-grained kinds
than these two. -/
theorem error_classification (oObs : HttpOutcome (List ObsProps))
    (oSt : HttpOutcome (List StationFeature))
    (oFc : HttpOutcome ForecastResponse)
    (oTc : HttpOutcome (List StationFeature)) :
    (get_observations oObs = Except.error ApiError.rateLimitExceeded ↔
      is429 oObs = true) ∧
    (get_observations oObs = Except.error ApiError.cannotConnect ↔
      (httpFailed oObs = true ∧ is429 oObs = false)) ∧
    (get_stations oSt = Except.error ApiError.rateLimitExceeded ↔
      is429 oSt = true) ∧
    (get_stations oSt = Except.error ApiError.cannotConnect ↔
      (httpFailed oSt = true ∧ is429 oSt = false)) ∧
    (get_forecast oFc = Except.error ApiError.rateLimitExceeded ↔
      is429 oFc = true) ∧
    (get_forecast oFc = Except.error ApiError.cannotConnect ↔
      (httpFailed oFc = true ∧ is429 oFc = false)) ∧
    (test_connection oTc = Except.error ApiError.cannotConnect ↔
      httpFailed oTc = true) ∧
    (test_connection oTc ≠ Except.error ApiError.rateLimitExceeded) ∧
    (∀ e : ApiError, e = ApiError.rateLimitExceeded ∨ e = ApiError.cannotConnect) := by
  refine ⟨?_, ?_, ?_, ?_, ?_, ?_, ?_, ?_, ?_⟩
  · exact (except_map_error_iff parseObservations (_request oObs) _).trans
      (_request_rateLimit_iff oObs)
  · exact (except_map_error_iff parseObservations (_request oObs) _).trans
      (_request_cannotConnect_iff oObs)
  · exact (except_map_error_iff parseStations (_request oSt) _).trans
      (_request_rateLimit_iff oSt)
  · exact (except_map_error_iff parseStations (_request oSt) _).trans
      (_request_cannotConnect_iff oSt)
  · exact (except_map_error_iff parseForecast (_request oFc) _).trans
      (_request_rateLimit_iff oFc)
  · exact (except_map_error_iff parseForecast (_request oFc) _).trans
      (_request_cannotConnect_iff oFc)
  · constructor
    · intro h
      cases hreq : _request oTc with
      | ok a =>
        simp [test_connection, hreq] at h
      | error e =>
        exact _request_error_httpFailed oTc e hreq
    · intro h
      cases hreq : _request oTc with
      | ok a =>
        have hf := _request_ok_httpFailed oTc a hreq
        rw [hf] at h
        cases h
      | error e =>
        simp [test_connection, hreq]
  · intro hc
    cases hreq : _request oTc with
    | ok a => simp [test_connection, hreq] at hc
    | error e => simp [test_connection, hreq] at hc
  · intro e
    cases e
    · exact Or.inl rfl
    · exact Or.inr rfl

/-- Claim C8, witness: the amended classification evaluated at concrete
outcomes — a 429 observation response is the rate-limit condition while a
500 response on `test_connection` is the connection kind. -/
theorem error_classification_witness :
    get_observations (HttpOutcome.response 429 (some [])) =
      Except.error ApiError.rateLimitExceeded ∧
    test_connection (HttpOutcome.response 500 none) =
      Except.error ApiError.cannotConnect := by
  constructor
  · exact (error_classification (HttpOutcome.response 429 (some []))
      HttpOutcome.networkError HttpOutcome.networkError
      HttpOutcome.networkError).1.mpr rfl
  · exact ((error_classification HttpOutcome.networkError
      HttpOutcome.networkError HttpOutcome.networkError
      (HttpOutcome.response 500 none)).2.2.2.2.2.2.1).mpr rfl

/-- Claim C9. `test_connection` never returns false: every execution either
returns true or raises the connection-error kind, and no input produces a
false result. -/
theorem test_connection_never_false (o : HttpOutcome (List StationFeature)) :
    (test_connection o = Except.ok true ∨
     test_connection o = Except.error ApiError.cannotConnect) ∧
    test_connection o ≠ Except.ok false := by
  cases hreq : _request o with
  | ok a =>
    constructor
    · left
      simp [test_connection, hreq]
    · intro hc
      simp [test_connection, hreq] at hc
  | error e =>
    constructor
    · right
      simp [test_connection, hreq]
    · intro hc
      simp [test_connection, hreq] at hc

/-- Claim C9, witness: the theorem applied at a concrete successful
outcome. -/
theorem test_connection_never_false_witness :
    test_connection (HttpOutcome.response 200 (some [])) = Except.ok true ∨
    test_connection (HttpOutcome.response 200 (some [])) =
      Except.error ApiError.cannotConnect :=
  (test_connection_never_false (HttpOutcome.response 200 (some []))).1

end DMI
